import Mathlib

/-!
Verification development for the StatsCode tracking core: a shallow
embedding of the event store (database.ts), the Analyzer (analyzer
module), the stats CLI activity computation, the session coordinator
(claude-code hook shims plus the Tracker), the certificate generator and
the signing module, with theorems settling the frozen claims about them.

Conventions of the embedding:
 - JS millisecond timestamps (Date.getTime values) are modelled as Int.
 - JS floating-point arithmetic on metric values is modelled as exact
   rational arithmetic.
 - SQL rows are modelled as lists of structures; INSERT appends,
   UPDATE maps over the rows.
 - fallible operations return Option.
-/

namespace StatsCode

/-- Millisecond timestamps as produced by Date.getTime in the source. -/
abbrev Millis := Int

/-- A row of the sessions table (database.ts initTables); the
metadata and project_path columns are not read by any claim and are
omitted. -/
structure Session where
  id : String
  assistant : String
  startTime : Millis
  endTime : Option Millis
  deriving DecidableEq, Repr

/-- A row of the interactions table (database.ts initTables); the
duration_ms, tool_name and metadata columns are not read by any claim
and are omitted. -/
structure Interaction where
  id : String
  sessionId : String
  type : String
  timestamp : Millis
  deriving DecidableEq, Repr

/-- The contents of the event store: the two SQLite tables. -/
structure Store where
  sessions : List Session
  interactions : List Interaction
  deriving DecidableEq, Repr

/-- StatsDatabase.getTotalHours (packages/core/src/database.ts lines
228-243): SELECT SUM(COALESCE(end_time, now) - start_time) over all
session rows, divided by 3600000 (an empty SUM is NULL, coalesced
to 0). -/
def getTotalHours (store : Store) (now : Millis) : ℚ :=
  (((store.sessions.map (fun s => s.endTime.getD now - s.startTime)).sum : ℤ) : ℚ) / 3600000

/-- Idle threshold of the activity computation: 5 minutes in ms (the
stats CLI, part_012 line 106). -/
def activityThresholdMs : Int := 5 * 60 * 1000

/-- One fold step of the gap-capping loop: add min(gap, threshold) for
each consecutive pair of ascending timestamps. -/
def gapActiveGo : Millis → List Millis → Int
  | _, [] => 0
  | prev, t :: ts => min (t - prev) activityThresholdMs + gapActiveGo t ts

/-- Gap-capped active milliseconds over the ascending interaction
timestamps (the stats CLI, part_012 lines 114-127): the sum of
min(gap, threshold) over consecutive pairs, plus a trailing threshold
credit when the list is nonempty; an empty list yields 0. -/
def gapActiveMs : List Millis → Int
  | [] => 0
  | t :: ts => gapActiveGo t ts + activityThresholdMs

/-- The gap-capping reference metric in hours, over ascending
interaction timestamps. -/
def gapActiveHours (ts : List Millis) : ℚ :=
  ((gapActiveMs ts : ℤ) : ℚ) / 3600000

/-- Per-assistant aggregate inside Analyzer.calculateStats (part_016
lines 512-519). -/
structure AssistantStats where
  hours : ℚ
  sessions : ℕ
  interactions : ℕ
  acceptRate : ℚ
  editRate : ℚ
  avgSessionDuration : ℚ
  deriving DecidableEq, Repr

/-- An earned badge of the Analyzer module (core types Badge); the
name, description and icon fields are copied verbatim from the catalog
and carry no information beyond the id, so they are omitted. -/
structure Badge where
  id : String
  earnedAt : Millis
  deriving DecidableEq, Repr

/-- UserStats (core types): the value computed by
Analyzer.calculateStats.  byAssistant is the JS record in its key
insertion order. -/
structure UserStats where
  totalHours : ℚ
  totalSessions : ℕ
  totalInteractions : ℕ
  byAssistant : List (String × AssistantStats)
  badges : List Badge
  score : ℚ
  lastUpdated : Millis
  deriving DecidableEq, Repr

/-- The assistants array of Analyzer.calculateStats (part_016 line
495). -/
def assistantsList : List String :=
  ["claude-code", "opencode", "codex", "antigravity", "cursor"]

/-- The per-assistant branch of Analyzer.calculateStats (part_016 lines
496-520): none when the assistant has no sessions (the continue), else
wall-clock hours (end ?? now) - start summed, counts, and rates. -/
def assistantStatsFor (store : Store) (now : Millis) (assistant : String) :
    Option AssistantStats :=
  let assistantSessions := store.sessions.filter (fun s => s.assistant = assistant)
  if assistantSessions.isEmpty then none else
  let sessionIds := assistantSessions.map (·.id)
  let assistantInteractions :=
    store.interactions.filter (fun i => i.sessionId ∈ sessionIds)
  let totalMs : Int :=
    (assistantSessions.map (fun s => s.endTime.getD now - s.startTime)).sum
  let accepts := (assistantInteractions.filter (fun i => i.type = "accept")).length
  let edits := (assistantInteractions.filter (fun i => i.type = "edit")).length
  let rejects := (assistantInteractions.filter (fun i => i.type = "reject")).length
  let totalActions := accepts + edits + rejects
  some
    { hours := ((totalMs : ℤ) : ℚ) / 3600000
      sessions := assistantSessions.length
      interactions := assistantInteractions.length
      acceptRate := if 0 < totalActions then (accepts : ℚ) / totalActions else 0
      editRate := if 0 < totalActions then (edits : ℚ) / totalActions else 0
      avgSessionDuration := (((totalMs : ℤ) : ℚ) / assistantSessions.length) / 60000 }

/-- Check of the power-user badge (part_016 lines 412-418): 100 or more
total hours. -/
def checkPowerUser (stats : UserStats) : Bool :=
  decide (stats.totalHours ≥ 100)

/-- Check of the thoughtful badge (part_016 lines 419-430): average
edit rate over the byAssistant values at least 0.5; false when there
are no assistants. -/
def checkThoughtful (stats : UserStats) : Bool :=
  let vals := stats.byAssistant.map (fun p => p.2.editRate)
  decide (¬ vals.isEmpty ∧ vals.sum / (vals.length : ℚ) ≥ 1/2)

/-- Check of the careful badge (part_016 lines 431-442): average accept
rate below 0.3; false when there are no assistants. -/
def checkCareful (stats : UserStats) : Bool :=
  let vals := stats.byAssistant.map (fun p => p.2.acceptRate)
  decide (¬ vals.isEmpty ∧ vals.sum / (vals.length : ℚ) < 3/10)

/-- Check of the speed-demon badge (part_016 lines 443-453): average
session duration strictly between 0 and 30 minutes; false when there
are no assistants. -/
def checkSpeedDemon (stats : UserStats) : Bool :=
  let vals := stats.byAssistant.map (fun p => p.2.avgSessionDuration)
  decide (¬ vals.isEmpty ∧ 0 < vals.sum / (vals.length : ℚ) ∧ vals.sum / (vals.length : ℚ) < 30)

/-- Check of the tester badge (part_016 lines 455-464): stubbed to
false in the source. -/
def checkTester (_stats : UserStats) : Bool := false

/-- Check of the documenter badge (part_016 lines 466-476): stubbed to
false in the source. -/
def checkDocumenter (_stats : UserStats) : Bool := false

/-- BADGE_DEFINITIONS of the Analyzer module (part_016 lines 411-477),
as id plus check pairs in catalog order. -/
def BADGE_DEFINITIONS : List (String × (UserStats → Bool)) :=
  [("power-user", checkPowerUser), ("thoughtful", checkThoughtful),
   ("careful", checkCareful), ("speed-demon", checkSpeedDemon),
   ("tester", checkTester), ("documenter", checkDocumenter)]

/-- Analyzer.calculateBadges (part_016 lines 544-560): the earned
badges in catalog order, each stamped with the current time. -/
def calculateBadges (stats : UserStats) (now : Millis) : List Badge :=
  BADGE_DEFINITIONS.filterMap (fun d => if d.2 stats then some ⟨d.1, now⟩ else none)

/-- Analyzer.calculateScore (part_016 lines 563-598): the sum of the
contributing factors divided by the count of contributing factors,
scaled by 5.  The hours factor contributes only when totalHours is
positive, the edit-rate factor only when byAssistant is nonempty, the
session factor only when totalSessions exceeds 10; the badge and
multi-tool factors always contribute. -/
def calculateScore (stats : UserStats) : ℚ :=
  let f1 : ℚ × ℕ :=
    if 0 < stats.totalHours then (min (stats.totalHours / 100) 1, 1) else (0, 0)
  let assistantStats := stats.byAssistant.map Prod.snd
  let f2 : ℚ × ℕ :=
    if 0 < assistantStats.length then
      ((assistantStats.map (·.editRate)).sum / (assistantStats.length : ℚ), 1)
    else (0, 0)
  let f3 : ℚ × ℕ :=
    if 10 < stats.totalSessions then (min ((stats.totalSessions : ℚ) / 100) 1, 1)
    else (0, 0)
  let f4 : ℚ := min ((stats.badges.length : ℚ) / 4) 1
  let f5 : ℚ := min ((stats.byAssistant.length : ℚ) / 3) 1
  let score := f1.1 + f2.1 + f3.1 + f4 + f5
  let factors : ℕ := f1.2 + f2.2 + f3.2 + 1 + 1
  if 0 < factors then (score / factors) * 5 else 0

/-- Analyzer.calculateStats (part_016 lines 487-541): builds the stats
from getAllSessions, getAllInteractions and getTotalHours, then fills
in badges and score.  now is the wall clock at the call (the source's
new Date() and Date.now()). -/
def calculateStats (store : Store) (now : Millis) : UserStats :=
  let byAssistant := assistantsList.filterMap
    (fun a => (assistantStatsFor store now a).map (fun st => (a, st)))
  let base : UserStats :=
    { totalHours := getTotalHours store now
      totalSessions := store.sessions.length
      totalInteractions := store.interactions.length
      byAssistant := byAssistant
      badges := []
      score := 0
      lastUpdated := now }
  let withBadges := { base with badges := calculateBadges base now }
  { withBadges with score := calculateScore withBadges }

/-- The current_session.json coordination record (hooks/index.ts
saveSessionId writes sessionId plus a timestamp; SessionEnd writes a
null sessionId). -/
structure Handle where
  sessionId : Option String
  timestamp : Millis
  deriving DecidableEq, Repr

/-- The file-system state shared by hook processes: the SQLite store
and the optional session handle file (none models both a missing and
an unreadable file, which loadSessionId treats alike). -/
structure FS where
  store : Store
  handle : Option Handle
  deriving DecidableEq, Repr

/-- The per-process tracker state: Tracker.currentSessionId
(part_017). -/
structure Proc where
  currentSessionId : Option String
  deriving DecidableEq, Repr

/-- StatsDatabase.createSession (database.ts lines 95-114): INSERT a
new row with a fresh id and no end_time; newId stands for the
randomUUID value. -/
def createSession (store : Store) (newId assistant : String) (startTime : Millis) :
    Store :=
  { store with sessions := store.sessions ++ [⟨newId, assistant, startTime, none⟩] }

/-- StatsDatabase.endSession (database.ts lines 117-125): UPDATE
sessions SET end_time WHERE id matches — unconditionally, with no
check that end_time was null. -/
def dbEndSession (store : Store) (sessionId : String) (endTime : Millis) : Store :=
  { store with sessions := store.sessions.map (fun s =>
      if s.id = sessionId then { s with endTime := some endTime } else s) }

/-- StatsDatabase.getSession (database.ts lines 128-141). -/
def getSession (store : Store) (sessionId : String) : Option Session :=
  store.sessions.find? (fun s => s.id = sessionId)

/-- StatsDatabase.recordInteraction (database.ts lines 159-179). -/
def dbRecordInteraction (store : Store) (newId sessionId type : String)
    (timestamp : Millis) : Store :=
  { store with interactions := store.interactions ++ [⟨newId, sessionId, type, timestamp⟩] }

/-- Tracker.endSession (part_017): no-op without a current session,
else set the end time in the store and clear the current session. -/
def trackerEndSession (p : Proc) (store : Store) (now : Millis) : Proc × Store :=
  match p.currentSessionId with
  | none => (p, store)
  | some sid => (⟨none⟩, dbEndSession store sid now)

/-- Tracker.startSession (part_017 lines 33-58): end any current
session first, then create a new row and hold its id. -/
def trackerStartSession (p : Proc) (store : Store) (assistant : String)
    (now : Millis) (newId : String) : Proc × Store :=
  let ended := trackerEndSession p store now
  (⟨some newId⟩, createSession ended.2 newId assistant now)

/-- Tracker.recordInteraction (part_017): dropped (returning null)
without a current session, else one interaction row is inserted. -/
def trackerRecordInteraction (p : Proc) (store : Store) (type : String)
    (now : Millis) (newId : String) : Store :=
  match p.currentSessionId with
  | none => store
  | some sid => dbRecordInteraction store newId sid type now

/-- Tracker.attachToSession (part_017 lines 354-379): fail when the
session does not exist or already has an endTime, else hold its id. -/
def attachToSession (p : Proc) (store : Store) (sessionId : String) : Proc × Bool :=
  match getSession store sessionId with
  | none => (p, false)
  | some s => if s.endTime.isSome then (p, false) else (⟨some sessionId⟩, true)

/-- The session-handle inactivity window: 2 hours in ms
(hooks/index.ts line 353). -/
def sessionExpiryMs : Int := 2 * 60 * 60 * 1000

/-- loadSessionId (hooks/index.ts lines 348-360): none when the handle
file is missing or unreadable, none when it is older than the 2-hour
window, else the stored sessionId (itself possibly null after
SessionEnd cleared it). -/
def loadSessionId (handle : Option Handle) (now : Millis) : Option String :=
  match handle with
  | none => none
  | some h => if now - h.timestamp > sessionExpiryMs then none else h.sessionId

/-- saveSessionId (hooks/index.ts lines 333-343): overwrite the handle
file with the id and the current time. -/
def saveSessionId (fs : FS) (sessionId : String) (now : Millis) : FS :=
  { fs with handle := some ⟨some sessionId, now⟩ }

/-- getReadyTracker (hooks/index.ts lines 371-400): reuse an in-memory
session, else attach to the session the handle points at, else (only
when createIfMissing) start a fresh session and persist a fresh
handle; otherwise report no session.  The returned FS is the
file-system state after the call. -/
def getReadyTracker (createIfMissing : Bool) (p : Proc) (fs : FS) (now : Millis)
    (newId : String) : Option Proc × FS :=
  if p.currentSessionId.isSome then (some p, fs)
  else
    let attached : Option Proc :=
      match loadSessionId fs.handle now with
      | none => none
      | some sid =>
        let att := attachToSession p fs.store sid
        if att.2 then some att.1 else none
    match attached with
    | some p1 => (some p1, fs)
    | none =>
      if createIfMissing then
        let started := trackerStartSession p fs.store "claude-code" now newId
        (some started.1, saveSessionId { fs with store := started.2 } newId now)
      else (none, fs)

/-- The SessionStart hook (hooks/index.ts lines 498-505): always start
a fresh session — no attach attempt — and persist its id in the
handle. -/
def SessionStart (p : Proc) (fs : FS) (now : Millis) (newId : String) : Proc × FS :=
  let started := trackerStartSession p fs.store "claude-code" now newId
  (started.1, saveSessionId { fs with store := started.2 } newId now)

/-- The OnPrompt hook (hooks/index.ts lines 529-538): record a prompt
interaction only when getReadyTracker(false) finds a session, else
return with no write and no error. -/
def OnPrompt (p : Proc) (fs : FS) (now : Millis) (newId : String) : Proc × FS :=
  match getReadyTracker false p fs now "" with
  | (none, fs1) => (p, fs1)
  | (some p1, fs1) =>
    (p1, { fs1 with store := trackerRecordInteraction p1 fs1.store "prompt" now newId })

/-- The PreToolUse hook (hooks/index.ts lines 406-461) restricted to
its store effect: record a tool_use interaction only when
getReadyTracker(false) finds a session. -/
def PreToolUse (p : Proc) (fs : FS) (now : Millis) (newId : String) : Proc × FS :=
  match getReadyTracker false p fs now "" with
  | (none, fs1) => (p, fs1)
  | (some p1, fs1) =>
    (p1, { fs1 with store := trackerRecordInteraction p1 fs1.store "tool_use" now newId })

/-- The stale window of the stats CLI sweep: 10 minutes in ms
(part_011 line 283). -/
def staleWindowMs : Int := 10 * 60 * 1000

/-- One row of the stale-session UPDATE in the stats CLI getStats
(part_011 lines 282-298): an open row older than 10 minutes gets
end_time = start_time + 10 minutes; every other row is untouched. -/
def sweepRow (now : Millis) (s : Session) : Session :=
  if s.endTime = none ∧ s.startTime < now - staleWindowMs then
    { s with endTime := some (s.startTime + staleWindowMs) }
  else s

/-- The stale-session UPDATE of the stats CLI getStats (part_011 lines
282-298), over the whole sessions table. -/
def sweepStaleSessions (store : Store) (now : Millis) : Store :=
  { store with sessions := store.sessions.map (sweepRow now) }

/-- One operation of a single in-process Tracker (part_017): start,
end, or record. -/
inductive TrackerOp where
  | start (newId : String) (now : Millis)
  | stop (now : Millis)
  | record (newId type : String) (now : Millis)

/-- Run one Tracker operation on the process-plus-store state. -/
def runOp (st : Proc × Store) : TrackerOp → Proc × Store
  | .start newId now => trackerStartSession st.1 st.2 "claude-code" now newId
  | .stop now => trackerEndSession st.1 st.2 now
  | .record newId ty now => (st.1, trackerRecordInteraction st.1 st.2 ty now newId)

/-- Run a sequence of Tracker operations. -/
def runOps (st : Proc × Store) (ops : List TrackerOp) : Proc × Store :=
  ops.foldl runOp st

/-- The number of open session rows (rows with no end_time). -/
def openCount (store : Store) : ℕ :=
  (store.sessions.filter (fun s => s.endTime = none)).length

/-! SHA-256 over byte lists, as used by the certificate generator
(createHash) and the signing module (createHmac).  Words are Nat
values kept below 2^32 explicitly. -/

/-- Reduce a word to 32 bits. -/
def w32 (n : ℕ) : ℕ := n % 4294967296

/-- Rotate a 32-bit word right by n bits. -/
def rotr32 (n x : ℕ) : ℕ := w32 ((x >>> n) ||| (x <<< (32 - n)))

/-- The 64 SHA-256 round constants, packed big-endian into one
natural number: constant i occupies bits 32*(63-i) and up, so the
round loop, counting remaining rounds n downward (round index
i = 63 - n), reads its constant as (packed >>> (32*n)) &&& 2^32-1.
Packing keeps every kernel step a single bignum operation. -/
def sha256KPacked : ℕ :=
  0x428a2f9871374491b5c0fbcfe9b5dba53956c25b59f111f1923f82a4ab1c5ed5d807aa9812835b01243185be550c7dc372be5d7480deb1fe9bdc06a7c19bf174e49b69c1efbe47860fc19dc6240ca1cc2de92c6f4a7484aa5cb0a9dc76f988da983e5152a831c66db00327c8bf597fc7c6e00bf3d5a7914706ca63511429296727b70a852e1b21384d2c6dfc53380d13650a7354766a0abb81c2c92e92722c85a2bfe8a1a81a664bc24b8b70c76c51a3d192e819d6990624f40e3585106aa07019a4c1161e376c082748774c34b0bcb5391c0cb34ed8aa4a5b9cca4f682e6ff3748f82ee78a5636f84c878148cc7020890befffaa4506cebbef9a3f7c67178f2

/-- The SHA-256 initial hash words. -/
def sha256H0 : List ℕ :=
  [0x6a09e667, 0xbb67ae85, 0x3c6ef372, 0xa54ff53a,
   0x510e527f, 0x9b05688c, 0x1f83d9ab, 0x5be0cd19]

/-- The schedule sigma-0 word function. -/
def ssig0 (x : ℕ) : ℕ := rotr32 7 x ^^^ rotr32 18 x ^^^ (x >>> 3)

/-- The schedule sigma-1 word function. -/
def ssig1 (x : ℕ) : ℕ := rotr32 17 x ^^^ rotr32 19 x ^^^ (x >>> 10)

/-- SHA-256 padding: append 0x80, zeros to 56 mod 64, then the bit
length as 8 big-endian bytes. -/
def sha256Pad (msg : List ℕ) : List ℕ :=
  let len := msg.length
  let bitLen := len * 8
  let zeros := (64 - ((len + 9) % 64)) % 64
  msg ++ [0x80] ++ List.replicate zeros 0 ++
    (List.range 8).map (fun i => (bitLen >>> ((7 - i) * 8)) % 256)

/-- Split a padded message into 64-byte blocks. -/
def sha256Blocks (padded : List ℕ) : List (List ℕ) :=
  (List.range (padded.length / 64)).map (fun i => (padded.drop (64 * i)).take 64)

/-- The i-th big-endian 32-bit word of a 64-byte block. -/
def beWord (b : List ℕ) (i : ℕ) : ℕ :=
  (b.getD (4 * i) 0) <<< 24 ||| (b.getD (4 * i + 1) 0) <<< 16 |||
  (b.getD (4 * i + 2) 0) <<< 8 ||| b.getD (4 * i + 3) 0

/-- The SHA-256 round loop in its one-pass sliding-window form: with n
rounds remaining (round index 63 - n), w0..w15 is the window of
schedule words w[i..i+15] and a..h the working state; each round also
slides the window by computing the next schedule word. -/
def sha256Loop (n w0 w1 w2 w3 w4 w5 w6 w7 w8 w9 w10 w11 w12 w13 w14 w15
    a b c d e f g h : ℕ) : List ℕ :=
  match n with
  | 0 => [a, b, c, d, e, f, g, h]
  | m + 1 =>
    let ki := (sha256KPacked >>> (32 * m)) &&& 0xffffffff
    let S1 := rotr32 6 e ^^^ rotr32 11 e ^^^ rotr32 25 e
    let ch := (e &&& f) ^^^ ((e ^^^ 0xffffffff) &&& g)
    let temp1 := w32 (h + S1 + ch + ki + w0)
    let S0 := rotr32 2 a ^^^ rotr32 13 a ^^^ rotr32 22 a
    let maj := (a &&& b) ^^^ (a &&& c) ^^^ (b &&& c)
    let temp2 := w32 (S0 + maj)
    let w16 := w32 (w0 + ssig0 w1 + w9 + ssig1 w14)
    sha256Loop m w1 w2 w3 w4 w5 w6 w7 w8 w9 w10 w11 w12 w13 w14 w15 w16
      (w32 (temp1 + temp2)) a b c (w32 (d + temp1)) e f g
termination_by structural n

/-- One SHA-256 compression: run the 64 rounds and add the result to
the incoming state words. -/
def sha256Compress (hs : List ℕ) (block : List ℕ) : List ℕ :=
  let wd := beWord block
  let final := sha256Loop 64 (wd 0) (wd 1) (wd 2) (wd 3) (wd 4) (wd 5) (wd 6) (wd 7)
    (wd 8) (wd 9) (wd 10) (wd 11) (wd 12) (wd 13) (wd 14) (wd 15)
    (hs.getD 0 0) (hs.getD 1 0) (hs.getD 2 0) (hs.getD 3 0)
    (hs.getD 4 0) (hs.getD 5 0) (hs.getD 6 0) (hs.getD 7 0)
  (hs.zip final).map (fun p => w32 (p.1 + p.2))

/-- The four big-endian bytes of a 32-bit word. -/
def wordBytes (wd : ℕ) : List ℕ :=
  [(wd >>> 24) % 256, (wd >>> 16) % 256, (wd >>> 8) % 256, wd % 256]

/-- The raw 32-byte SHA-256 digest of a byte list. -/
def sha256DigestBytes (msg : List ℕ) : List ℕ :=
  ((((sha256Blocks (sha256Pad msg)).foldl sha256Compress sha256H0)).map wordBytes).flatten

/-- A hexadecimal digit character. -/
def hexDigit (n : ℕ) : Char := "0123456789abcdef".toList.getD n '0'

/-- The two lowercase hex characters of a byte. -/
def byteHex (b : ℕ) : List Char := [hexDigit (b / 16), hexDigit (b % 16)]

/-- The lowercase hex SHA-256 digest of a byte list. -/
def sha256HexOfBytes (msg : List ℕ) : String :=
  String.mk (((sha256DigestBytes msg).map byteHex).flatten)

/-- The bytes of a string.  All strings the source hashes here are
ASCII, where UTF-8 bytes coincide with code points. -/
def strBytes (s : String) : List ℕ := s.toList.map Char.toNat

/-- The lowercase hex SHA-256 digest of a string. -/
def sha256Hex (s : String) : String := sha256HexOfBytes (strBytes s)

/-- HMAC-SHA256 with a string key and string message, hex output, as
produced by createHmac(sha256, key).update(msg).digest(hex). -/
def hmacSha256Hex (key msg : String) : String :=
  let kb := strBytes key
  let k0 := if 64 < kb.length then sha256DigestBytes kb else kb
  let kpad := k0 ++ List.replicate (64 - k0.length) 0
  let ipad := kpad.map (fun b => b ^^^ 0x36)
  let opad := kpad.map (fun b => b ^^^ 0x5c)
  sha256HexOfBytes (opad ++ sha256DigestBytes (ipad ++ strBytes msg))

/-! Certificate generator (part_016 lines 9-222).  JSON.stringify is
embedded for the concrete shapes the source serializes; string values
are assumed free of characters that JSON.stringify escapes (true of
every value the claims exercise), and the numeric stats fields are
restricted to integers, whose JS number rendering is decimal. -/

/-- A JSON string literal (no escaping needed for the values used). -/
def jsonStr (s : String) : String := "\"" ++ s ++ "\""

/-- The stats fields the certificate hash reads (part_016 lines
30-40): totalHours, totalSessions and the badge ids in stored order. -/
structure CertStats where
  totalHours : ℤ
  totalSessions : ℕ
  badgeIds : List String
  deriving DecidableEq, Repr

/-- A certificate (core types): userId, the generatedAt instant as its
ISO string, the stats snapshot, and the verification hash. -/
structure Certificate where
  userId : String
  generatedAtIso : String
  stats : CertStats
  verificationHash : String
  deriving DecidableEq, Repr

/-- The JSON.stringify data of CertificateGenerator.generateHash
(part_016 lines 31-37): key insertion order userId, generatedAt,
totalHours, totalSessions, badges; badges mapped to their ids in
stored order, not sorted. -/
def certDataString (userId generatedAtIso : String) (stats : CertStats) : String :=
  "\x7b\"userId\":" ++ jsonStr userId ++
  ",\"generatedAt\":" ++ jsonStr generatedAtIso ++
  ",\"totalHours\":" ++ toString stats.totalHours ++
  ",\"totalSessions\":" ++ toString stats.totalSessions ++
  ",\"badges\":[" ++ String.intercalate "," (stats.badgeIds.map jsonStr) ++ "]\x7d"

/-- CertificateGenerator.generateHash (part_016 lines 30-40): the
sha256 prefix plus the first 16 hex characters of the digest of the
data string. -/
def generateHash (userId generatedAtIso : String) (stats : CertStats) : String :=
  "sha256:" ++ (sha256Hex (certDataString userId generatedAtIso stats)).take 16

/-- CertificateGenerator.generateCertificate (part_016 lines 17-27). -/
def generateCertificate (userId generatedAtIso : String) (stats : CertStats) :
    Certificate :=
  { userId := userId, generatedAtIso := generatedAtIso, stats := stats
    verificationHash := generateHash userId generatedAtIso stats }

/-- CertificateGenerator.verify (part_016 lines 213-221): recompute
the hash from the embedded fields and compare. -/
def certVerify (c : Certificate) : Bool :=
  generateHash c.userId c.generatedAtIso c.stats == c.verificationHash

/-! Signing module (part_016 lines 224-394). -/

/-- An event payload before signing (part_016 EventPayload).  The data
record is modelled as an association list with string values. -/
structure EventPayload where
  type : String
  data : List (String × String)
  timestamp : ℤ
  deviceId : String
  nonce : String
  deriving DecidableEq, Repr

/-- A signed event: the payload plus its signature. -/
structure SignedEvent extends EventPayload where
  signature : String
  deriving DecidableEq, Repr

/-- The top-level payload keys in sorted order: the replacer array
Object.keys(obj).sort() that canonicalize passes to JSON.stringify. -/
def payloadKeys : List String :=
  ["data", "deviceId", "nonce", "timestamp", "type"]

/-- Property lookup on the data record. -/
def lookupData (data : List (String × String)) (k : String) : Option String :=
  (data.find? (fun p => p.1 = k)).map Prod.snd

/-- The serialization of the nested data object under the replacer
array: JSON.stringify with an array replacer keeps, at EVERY level,
only the properties whose key is in the array, in array order — so
data entries keep only keys that collide with the five payload key
names, and everything else is dropped. -/
def serializeData (data : List (String × String)) : String :=
  "\x7b" ++ String.intercalate ","
    (payloadKeys.filterMap (fun k =>
      (lookupData data k).map (fun v => jsonStr k ++ ":" ++ jsonStr v))) ++ "\x7d"

/-- canonicalize (part_016 lines 321-323): JSON.stringify of the
payload with the sorted-keys replacer array; the five top-level keys
appear in replacer order. -/
def canonicalize (p : EventPayload) : String :=
  "\x7b\"data\":" ++ serializeData p.data ++
  ",\"deviceId\":" ++ jsonStr p.deviceId ++
  ",\"nonce\":" ++ jsonStr p.nonce ++
  ",\"timestamp\":" ++ toString p.timestamp ++
  ",\"type\":" ++ jsonStr p.type ++ "\x7d"

/-- getDeviceId (part_016 lines 270-274): the first 16 hex characters
of HMAC-SHA256(key, device-id). -/
def getDeviceId (key : String) : String :=
  (hmacSha256Hex key "device-id").take 16

/-- signEvent (part_016 lines 280-284): HMAC-SHA256 of the canonical
serialization under the device key. -/
def signEvent (key : String) (p : EventPayload) : String :=
  hmacSha256Hex key (canonicalize p)

/-- createSignedEvent (part_016 lines 289-306); the nonce is random in
the source and a parameter here. -/
def createSignedEvent (key type : String) (data : List (String × String))
    (timestamp : ℤ) (nonce : String) : SignedEvent :=
  let p : EventPayload :=
    { type := type, data := data, timestamp := timestamp
      deviceId := getDeviceId key, nonce := nonce }
  { p with signature := signEvent key p }

/-- verifyEvent (part_016 lines 311-315): strip the signature,
re-sign the rest under the device key, compare. -/
def verifyEvent (key : String) (e : SignedEvent) : Bool :=
  signEvent key e.toEventPayload == e.signature

/-! Badge checker of the opencode plugin (the checker source embedded
in packages/plugin-opencode/README.md). -/

/-- Badge tier levels. -/
inductive BadgeTier where
  | bronze | silver | gold | platinum | diamond
  deriving DecidableEq, Repr

/-- Tier order used by getTierForValue, highest first (README line
252). -/
def tierOrderDesc : List BadgeTier :=
  [.diamond, .platinum, .gold, .silver, .bronze]

/-- Tier order used by getNextTier, lowest first (README line 263). -/
def tierOrderAsc : List BadgeTier :=
  [.bronze, .silver, .gold, .platinum, .diamond]

/-- The rank of a tier in ascending order. -/
def tierRank : BadgeTier → ℕ
  | .bronze => 0
  | .silver => 1
  | .gold => 2
  | .platinum => 3
  | .diamond => 4

/-- Whether a value satisfies a tier floor: the JS test value >=
tiers[tier], which is false when the table has no entry for the tier
(a comparison with undefined). -/
def tierSatisfied (value : ℚ) (tiers : BadgeTier → Option ℚ) (t : BadgeTier) : Bool :=
  match tiers t with
  | some floor => decide (value ≥ floor)
  | none => false

/-- getTierForValue (README lines 251-260): first tier, scanning from
diamond down, whose floor the value meets. -/
def getTierForValue (value : ℚ) (tiers : BadgeTier → Option ℚ) : Option BadgeTier :=
  tierOrderDesc.find? (tierSatisfied value tiers)

/-- getNextTier (README lines 262-267): the successor in ascending
tier order, none after diamond. -/
def getNextTier (current : BadgeTier) : Option BadgeTier :=
  let i := tierRank current
  if i < 4 then tierOrderAsc.get? (i + 1) else none

/-- An earned badge of the checker (badges types EarnedBadge).  A
progress of none models the JS NaN produced when the next tier has no
floor in the table, as well as the absent progress of non-tiered
badges. -/
structure EarnedBadge where
  badgeId : String
  earnedAt : Millis
  tier : Option BadgeTier
  progress : Option ℚ
  deriving DecidableEq, Repr

/-- The tier branch shared by checkThresholdBadge (README lines
131-146) and checkToolBadge: award the tier from getTierForValue with
progress min(100, value/nextFloor*100), or 100 at diamond where
getNextTier is null. -/
def tieredResult (badgeId : String) (now : Millis) (value : ℚ)
    (tiers : BadgeTier → Option ℚ) : Option EarnedBadge :=
  match getTierForValue value tiers with
  | none => none
  | some tier =>
    let progress : Option ℚ :=
      match getNextTier tier with
      | some next => (tiers next).map (fun floor => min 100 (value / floor * 100))
      | none => some 100
    some ⟨badgeId, now, some tier, progress⟩

/-- checkOperator (README lines 270-278). -/
def checkOperator (value : ℚ) (op : String) (target : ℚ) : Bool :=
  match op with
  | ">=" => decide (value ≥ target)
  | ">" => decide (value > target)
  | "<=" => decide (value ≤ target)
  | "<" => decide (value < target)
  | "==" => decide (value = target)
  | _ => false

/-- The metric dispatch of checkThresholdBadge (README lines
117-129): unknown metrics yield null. -/
def metricValue (stats : UserStats) (metric : String) : Option ℚ :=
  match metric with
  | "totalHours" => some stats.totalHours
  | "totalSessions" => some (stats.totalSessions : ℚ)
  | "totalInteractions" => some (stats.totalInteractions : ℚ)
  | _ => none

/-- The criteria record of a threshold badge (badges types
BadgeCriteria restricted to the fields checkThresholdBadge reads). -/
structure ThresholdCriteria where
  metric : String
  tiers : Option (BadgeTier → Option ℚ)
  value : Option ℚ
  operator : Option String

/-- checkThresholdBadge (README lines 113-160): resolve the metric,
then the tier table when present, else the single value+operator
check (defaulting the operator to >=). -/
def checkThresholdBadge (badgeId : String) (criteria : ThresholdCriteria)
    (stats : UserStats) (now : Millis) : Option EarnedBadge :=
  match metricValue stats criteria.metric with
  | none => none
  | some value =>
    match criteria.tiers with
    | some tiers => tieredResult badgeId now value tiers
    | none =>
      match criteria.value with
      | some target =>
        if checkOperator value (criteria.operator.getD ">=") target then
          some ⟨badgeId, now, none, none⟩
        else none
      | none => none

/-- The clock-independent projection of UserStats: every field except
the lastUpdated stamp, and badges reduced to their ids (dropping the
earnedAt stamps). -/
def clockFree (u : UserStats) :
    ℚ × ℕ × ℕ × List (String × AssistantStats) × List String × ℚ :=
  (u.totalHours, u.totalSessions, u.totalInteractions, u.byAssistant,
   u.badges.map (·.id), u.score)

/-- The score formula as claim C6 words it (for comparison against the
source calculateScore): the average of five factors with the FIXED
divisor 5, the session factor counted only above 10 sessions, scaled
by 5. -/
def scoreSpecC6 (stats : UserStats) : ℚ :=
  let a := min (stats.totalHours / 100) 1
  let b := (stats.byAssistant.map (fun p => p.2.editRate)).sum /
    (stats.byAssistant.length : ℚ)
  let c := if 10 < stats.totalSessions then min ((stats.totalSessions : ℚ) / 100) 1
    else 0
  let d := min ((stats.badges.length : ℚ) / 4) 1
  let e := min ((stats.byAssistant.length : ℚ) / 3) 1
  ((a + b + c + d + e) / 5) * 5

/-- The factors that actually contribute to calculateScore, as the
amended claim C6 words it: the badge and multi-tool factors always,
the hours factor only when totalHours is positive, the edit-rate
factor only when some assistant has sessions, the session factor only
above 10 sessions. -/
def includedFactorsC6 (stats : UserStats) : List ℚ :=
  (if 0 < stats.totalHours then [min (stats.totalHours / 100) 1] else []) ++
  (if 0 < stats.byAssistant.length then
    [(stats.byAssistant.map (fun p => p.2.editRate)).sum / (stats.byAssistant.length : ℚ)]
   else []) ++
  (if 10 < stats.totalSessions then [min ((stats.totalSessions : ℚ) / 100) 1] else []) ++
  [min ((stats.badges.length : ℚ) / 4) 1, min ((stats.byAssistant.length : ℚ) / 3) 1]

/-- The tier table of the claim C7 example: bronze 10, silver 50,
gold 200, no platinum or diamond entries. -/
def exampleTiers : BadgeTier → Option ℚ
  | .bronze => some 10
  | .silver => some 50
  | .gold => some 200
  | _ => none

/-- The single-process Tracker invariant: every open session row is
the row the tracker currently holds, and at most one row is open. -/
def trackerInv (st : Proc × Store) : Prop :=
  (∀ s ∈ st.2.sessions, s.endTime = none → st.1.currentSessionId = some s.id) ∧
  openCount st.2 ≤ 1

/-! Helper lemmas shared by the claim theorems. -/

/-- getD on a non-null endTime ignores the default. -/
theorem endTime_getD_congr {s : Session} (h : s.endTime ≠ none) (t1 t2 : Millis) :
    s.endTime.getD t1 = s.endTime.getD t2 := by
  cases hE : s.endTime with
  | none => exact absurd hE h
  | some v => rfl

/-- getTotalHours does not depend on the clock when every session is
closed. -/
theorem getTotalHours_clock_free {store : Store} (t1 t2 : Millis)
    (h : ∀ s ∈ store.sessions, s.endTime ≠ none) :
    getTotalHours store t1 = getTotalHours store t2 := by
  have hm : store.sessions.map (fun s => s.endTime.getD t1 - s.startTime) =
      store.sessions.map (fun s => s.endTime.getD t2 - s.startTime) :=
    List.map_congr_left (fun s hs => by rw [endTime_getD_congr (h s hs) t1 t2])
  unfold getTotalHours
  rw [hm]

/-- The per-assistant stats do not depend on the clock when every
session is closed. -/
theorem assistantStatsFor_clock_free {store : Store} (t1 t2 : Millis)
    (h : ∀ s ∈ store.sessions, s.endTime ≠ none) (a : String) :
    assistantStatsFor store t1 a = assistantStatsFor store t2 a := by
  have hm : (store.sessions.filter (fun s => s.assistant = a)).map
      (fun s => s.endTime.getD t1 - s.startTime) =
      (store.sessions.filter (fun s => s.assistant = a)).map
      (fun s => s.endTime.getD t2 - s.startTime) :=
    List.map_congr_left (fun s hs => by
      rw [endTime_getD_congr (h s (List.mem_of_mem_filter hs)) t1 t2])
  simp only [assistantStatsFor]
  rw [hm]

/-- Every catalog check reads only totalHours and byAssistant. -/
theorem badgeCheck_congr {u1 u2 : UserStats} (hH : u1.totalHours = u2.totalHours)
    (hB : u1.byAssistant = u2.byAssistant) :
    ∀ d ∈ BADGE_DEFINITIONS, d.2 u1 = d.2 u2 := by
  intro d hd
  fin_cases hd <;>
    simp [checkPowerUser, checkThoughtful, checkCareful, checkSpeedDemon,
      checkTester, checkDocumenter, hH, hB]

/-- The ids of the badges produced by a filterMap over check pairs. -/
theorem filterMap_badge_ids (l : List (String × (UserStats → Bool))) (u : UserStats)
    (now : Millis) :
    ((l.filterMap (fun d => if d.2 u then some (⟨d.1, now⟩ : Badge) else none)).map
      (·.id)) = l.filterMap (fun d => if d.2 u then some d.1 else none) := by
  induction l with
  | nil => rfl
  | cons d l ih => cases hd : d.2 u <;> simp [List.filterMap_cons, hd, ih]

/-- The ids of calculateBadges, independent of the stamp. -/
theorem calculateBadges_ids (u : UserStats) (now : Millis) :
    (calculateBadges u now).map (·.id) =
      BADGE_DEFINITIONS.filterMap (fun d => if d.2 u then some d.1 else none) := by
  simpa [calculateBadges] using filterMap_badge_ids BADGE_DEFINITIONS u now

/-- Stats with equal check results earn the same badge ids. -/
theorem calculateBadges_ids_congr {u1 u2 : UserStats}
    (h : ∀ d ∈ BADGE_DEFINITIONS, d.2 u1 = d.2 u2) (n1 n2 : Millis) :
    (calculateBadges u1 n1).map (·.id) = (calculateBadges u2 n2).map (·.id) := by
  rw [calculateBadges_ids, calculateBadges_ids]
  exact List.filterMap_congr (fun d hd => by rw [h d hd])

/-- Stats with equal check results earn the same number of badges. -/
theorem calculateBadges_length_congr {u1 u2 : UserStats}
    (h : ∀ d ∈ BADGE_DEFINITIONS, d.2 u1 = d.2 u2) (n1 n2 : Millis) :
    (calculateBadges u1 n1).length = (calculateBadges u2 n2).length := by
  have hlen := congrArg List.length (calculateBadges_ids_congr h n1 n2)
  simpa using hlen

/-- calculateScore reads only totalHours, byAssistant, totalSessions
and the badge count. -/
theorem calculateScore_congr {u1 u2 : UserStats}
    (h1 : u1.totalHours = u2.totalHours) (h2 : u1.byAssistant = u2.byAssistant)
    (h3 : u1.totalSessions = u2.totalSessions)
    (h4 : u1.badges.length = u2.badges.length) :
    calculateScore u1 = calculateScore u2 := by
  simp only [calculateScore, h1, h2, h3, h4]

/-! Claim theorems. -/

/-- C1: the hours metric the code reports is NOT the gap-capping
reference.  On a store holding one closed claude-code session of one
wall-clock hour with no interactions, the gap-capping reference (zero
interactions) is 0, while getTotalHours and the per-tool breakdown
hours of calculateStats both report the wall-clock quantity
endTime - startTime = 1 hour. -/
theorem c1_hours_metric_is_wall_clock :
    getTotalHours ⟨[⟨"s1", "claude-code", 0, some 3600000⟩], []⟩ 7200000 = 1 ∧
    ((calculateStats ⟨[⟨"s1", "claude-code", 0, some 3600000⟩], []⟩ 7200000).byAssistant.map
      (fun p => (p.1, p.2.hours))) = [("claude-code", 1)] ∧
    gapActiveHours (((⟨[⟨"s1", "claude-code", 0, some 3600000⟩], []⟩ : Store)).interactions.map
      (·.timestamp)) = 0 ∧
    (1 : ℚ) ≠ 0 := by
  refine ⟨by norm_num [getTotalHours], ?_, by norm_num [gapActiveHours, gapActiveMs], by norm_num⟩
  simp [calculateStats, assistantsList, assistantStatsFor, getTotalHours,
    List.filterMap_cons, List.filter_cons]

/-- C2 counterexample: calculateStats is not a pure function of the
store contents alone.  On a store with one open session, two calls at
clock instants one hour apart return different UserStats (the
totalHours, hours and lastUpdated fields all differ). -/
theorem c2_counterexample :
    calculateStats ⟨[⟨"s1", "claude-code", 0, none⟩], []⟩ 3600000 ≠
      calculateStats ⟨[⟨"s1", "claude-code", 0, none⟩], []⟩ 7200000 := by
  intro hEq
  have hTH := congrArg UserStats.totalHours hEq
  norm_num [calculateStats, getTotalHours] at hTH

/-- C2 amended: calculateStats is a pure function of the store
contents and the clock instant of the call; when every session in the
store is closed, everything except the lastUpdated stamp and the badge
earnedAt stamps is a function of the store alone — two calls at
different instants agree on the clockFree projection. -/
theorem c2_amended (store : Store) (t1 t2 : Millis)
    (h : ∀ s ∈ store.sessions, s.endTime ≠ none) :
    clockFree (calculateStats store t1) = clockFree (calculateStats store t2) := by
  have hBA : assistantsList.filterMap
      (fun a => (assistantStatsFor store t1 a).map (fun st => (a, st))) =
      assistantsList.filterMap
      (fun a => (assistantStatsFor store t2 a).map (fun st => (a, st))) :=
    List.filterMap_congr (fun a _ => by rw [assistantStatsFor_clock_free t1 t2 h a])
  have hTH := getTotalHours_clock_free t1 t2 h
  simp only [calculateStats, clockFree, Prod.mk.injEq]
  refine ⟨hTH, trivial, trivial, hBA, ?_, ?_⟩
  · exact calculateBadges_ids_congr (badgeCheck_congr hTH hBA) t1 t2
  · exact calculateScore_congr hTH hBA rfl
      (calculateBadges_length_congr (badgeCheck_congr hTH hBA) t1 t2)

/-- C2 amended witness: a concrete all-closed store on which two calls
an hour apart agree on the clockFree projection. -/
theorem c2_amended_witness :
    clockFree (calculateStats ⟨[⟨"s1", "claude-code", 0, some 600000⟩], []⟩ 3600000) =
      clockFree (calculateStats ⟨[⟨"s1", "claude-code", 0, some 600000⟩], []⟩ 7200000) :=
  c2_amended ⟨[⟨"s1", "claude-code", 0, some 600000⟩], []⟩ 3600000 7200000
    (by decide)

/-- dbEndSession leaves no open row when every open row had the ended
id. -/
theorem dbEndSession_closes {store : Store} {sid : String} (t : Millis)
    (h : ∀ s ∈ store.sessions, s.endTime = none → s.id = sid) :
    ∀ s2 ∈ (dbEndSession store sid t).sessions, s2.endTime ≠ none := by
  intro s2 hs2
  simp only [dbEndSession, List.mem_map] at hs2
  obtain ⟨s, hsmem, hEq⟩ := hs2
  by_cases hid : s.id = sid
  · rw [← hEq]; simp [hid]
  · rw [← hEq]; simp only [hid, if_false, if_neg]
    intro hopen
    exact hid (h s hsmem hopen)

/-- A store with no open row has openCount zero. -/
theorem openCount_eq_zero {store : Store}
    (h : ∀ s ∈ store.sessions, s.endTime ≠ none) : openCount store = 0 := by
  simp only [openCount, List.length_eq_zero, List.filter_eq_nil_iff]
  intro s hs
  simpa using h s hs

/-- createSession adds exactly one open row. -/
theorem openCount_createSession (store : Store) (nid a : String) (t : Millis) :
    openCount (createSession store nid a t) = openCount store + 1 := by
  simp [openCount, createSession, List.filter_append]

/-- Each Tracker operation preserves the single-process invariant. -/
theorem trackerInv_runOp {st : Proc × Store} (h : trackerInv st) (op : TrackerOp) :
    trackerInv (runOp st op) := by
  obtain ⟨h1, h2⟩ := h
  cases op with
  | start nid now =>
    cases hcur : st.1.currentSessionId with
    | none =>
      have hclosed : ∀ s ∈ st.2.sessions, s.endTime ≠ none := by
        intro s hs hopen
        have hx := h1 s hs hopen
        rw [hcur] at hx
        cases hx
      constructor
      · intro s hs hopen
        simp only [runOp, trackerStartSession, trackerEndSession, hcur,
          createSession, List.mem_append, List.mem_singleton] at hs ⊢
        rcases hs with hs | hs
        · exact absurd hopen (hclosed s hs)
        · rw [hs]
      · show openCount (createSession _ _ _ _) ≤ 1
        rw [show (trackerEndSession st.1 st.2 now).2 = st.2 by
          simp [trackerEndSession, hcur]]
        rw [openCount_createSession, openCount_eq_zero hclosed]
    | some sid =>
      have hids : ∀ s ∈ st.2.sessions, s.endTime = none → s.id = sid := by
        intro s hs hopen
        have hx := h1 s hs hopen
        rw [hcur] at hx
        exact (Option.some.injEq _ _ ▸ hx).symm
      have hclosed := dbEndSession_closes now hids
      constructor
      · intro s hs hopen
        simp only [runOp, trackerStartSession, trackerEndSession, hcur,
          createSession, List.mem_append, List.mem_singleton] at hs ⊢
        rcases hs with hs | hs
        · exact absurd hopen (hclosed s hs)
        · rw [hs]
      · show openCount (createSession _ _ _ _) ≤ 1
        rw [show (trackerEndSession st.1 st.2 now).2 = dbEndSession st.2 sid now by
          simp [trackerEndSession, hcur]]
        rw [openCount_createSession, openCount_eq_zero hclosed]
  | stop now =>
    cases hcur : st.1.currentSessionId with
    | none =>
      constructor
      · intro s hs hopen
        simp only [runOp, trackerEndSession, hcur] at hs ⊢
        exact hcur ▸ h1 s hs hopen
      · simpa [runOp, trackerEndSession, hcur] using h2
    | some sid =>
      have hids : ∀ s ∈ st.2.sessions, s.endTime = none → s.id = sid := by
        intro s hs hopen
        have hx := h1 s hs hopen
        rw [hcur] at hx
        exact (Option.some.injEq _ _ ▸ hx).symm
      have hclosed := dbEndSession_closes now hids
      constructor
      · intro s hs hopen
        simp only [runOp, trackerEndSession, hcur] at hs
        exact absurd hopen (hclosed s hs)
      · simp only [runOp, trackerEndSession, hcur]
        rw [openCount_eq_zero hclosed]
        exact Nat.zero_le 1
  | record nid ty now =>
    constructor
    · intro s hs hopen
      cases hcur : st.1.currentSessionId with
      | none =>
        simp only [runOp, trackerRecordInteraction, hcur] at hs ⊢
        exact hcur ▸ h1 s hs hopen
      | some sid =>
        simp only [runOp, trackerRecordInteraction, hcur, dbRecordInteraction] at hs ⊢
        exact hcur ▸ h1 s hs hopen
    · cases hcur : st.1.currentSessionId with
      | none => simpa [runOp, trackerRecordInteraction, hcur, openCount] using h2
      | some sid =>
        simpa [runOp, trackerRecordInteraction, hcur, dbRecordInteraction,
          openCount] using h2

/-- Any sequence of Tracker operations preserves the invariant. -/
theorem trackerInv_runOps {st : Proc × Store} (h : trackerInv st)
    (ops : List TrackerOp) : trackerInv (runOps st ops) := by
  induction ops generalizing st with
  | nil => exact h
  | cons op ops ih => exact ih (trackerInv_runOp h op)

/-- C3 counterexample: with a fresh handle pointing at the open
session s1, the SessionStart callback does NOT attach: it returns a
different session id and inserts a second row — the source starts a
fresh session unconditionally instead of calling
getReadyTracker(createIfMissing = true). -/
theorem c3_counterexample :
    loadSessionId (some ⟨some "s1", 0⟩) 1000 = some "s1" ∧
    getSession ⟨[⟨"s1", "claude-code", 0, none⟩], []⟩ "s1" =
      some ⟨"s1", "claude-code", 0, none⟩ ∧
    (SessionStart ⟨none⟩ ⟨⟨[⟨"s1", "claude-code", 0, none⟩], []⟩, some ⟨some "s1", 0⟩⟩
      1000 "s2").1.currentSessionId ≠ some "s1" ∧
    (SessionStart ⟨none⟩ ⟨⟨[⟨"s1", "claude-code", 0, none⟩], []⟩, some ⟨some "s1", 0⟩⟩
      1000 "s2").2.store.sessions.length = 2 := by decide

/-- C3 amended: the attach-or-create operation getReadyTracker with
createIfMissing = true does attach before creating — a second process
whose handle is valid and points at an open session gets that same
session id with no new row, and an expired or missing handle leads to
a fresh session and handle; but the SessionStart hook does not invoke
this path: it creates a fresh session unconditionally. -/
theorem c3_amended (p : Proc) (fs : FS) (now : Millis) (newId sid : String)
    (s : Session) (h0 : p.currentSessionId = none) :
    (loadSessionId fs.handle now = some sid → getSession fs.store sid = some s →
      s.endTime = none →
      getReadyTracker true p fs now newId = (some ⟨some sid⟩, fs)) ∧
    (loadSessionId fs.handle now = none →
      getReadyTracker true p fs now newId =
        (some ⟨some newId⟩,
          ⟨createSession fs.store newId "claude-code" now, some ⟨some newId, now⟩⟩)) := by
  constructor
  · intro h1 h2 h3
    simp [getReadyTracker, h0, h1, attachToSession, h2, h3]
  · intro h1
    simp [getReadyTracker, h0, h1, trackerStartSession, trackerEndSession,
      saveSessionId, createSession]

/-- C3 amended witness: both branches at concrete inputs — attaching
to the open session s1 under a valid handle, and creating s2 under a
missing handle. -/
theorem c3_amended_witness :
    (getReadyTracker true ⟨none⟩
        ⟨⟨[⟨"s1", "claude-code", 0, none⟩], []⟩, some ⟨some "s1", 0⟩⟩ 1000 "s2" =
      (some ⟨some "s1"⟩, ⟨⟨[⟨"s1", "claude-code", 0, none⟩], []⟩, some ⟨some "s1", 0⟩⟩)) ∧
    (getReadyTracker true ⟨none⟩ ⟨⟨[], []⟩, none⟩ 1000 "s2" =
      (some ⟨some "s2"⟩,
        ⟨createSession ⟨[], []⟩ "s2" "claude-code" 1000, some ⟨some "s2", 1000⟩⟩)) := by
  constructor
  · exact (c3_amended ⟨none⟩ _ 1000 "s2" "s1" ⟨"s1", "claude-code", 0, none⟩ rfl).1
      (by decide) (by decide) (by decide)
  · exact (c3_amended ⟨none⟩ _ 1000 "s2" "s1" ⟨"s1", "claude-code", 0, none⟩ rfl).2
      (by decide)

/-- C8 counterexample: the stats CLI display command sets endTime — a
store holding one open session started at 0, viewed at 20 minutes,
comes out of the stale-session sweep with endTime = 600000, with no
host end signal involved. -/
theorem c8_counterexample :
    (sweepStaleSessions ⟨[⟨"s1", "claude-code", 0, none⟩], []⟩ 1200000).sessions =
      [⟨"s1", "claude-code", 0, some 600000⟩] := by decide

/-- C8 amended: endTime is set by the host end signal
(Tracker.endSession) and additionally by the stats CLI stale-session
sweep, which closes open rows older than 10 minutes at
startTime + 10 minutes; the sweep never changes a non-null endTime,
and a repeated Tracker-level endSession call is a no-op. -/
theorem c8_amended :
    (∀ (now : Millis) (s : Session), s.endTime ≠ none → sweepRow now s = s) ∧
    (∀ (now : Millis) (s : Session), sweepRow now s ≠ s →
      s.endTime = none ∧ s.startTime < now - staleWindowMs ∧
      (sweepRow now s).endTime = some (s.startTime + staleWindowMs)) ∧
    (∀ (p : Proc) (store : Store) (t1 t2 : Millis),
      trackerEndSession (trackerEndSession p store t1).1
        (trackerEndSession p store t1).2 t2 = trackerEndSession p store t1) := by
  refine ⟨?_, ?_, ?_⟩
  · intro now s h
    rw [sweepRow, if_neg]
    intro hc
    exact h hc.1
  · intro now s h
    by_cases hc : s.endTime = none ∧ s.startTime < now - staleWindowMs
    · exact ⟨hc.1, hc.2, by simp [sweepRow, hc]⟩
    · exact absurd (by rw [sweepRow, if_neg hc]) h
  · intro p store t1 t2
    cases hc : p.currentSessionId with
    | none => simp [trackerEndSession, hc]
    | some sid => simp [trackerEndSession, hc]

/-- C8 amended witness: the sweep leaves a closed row alone, reports
the exact effect on a stale open row, and a double endSession equals a
single one, all at concrete inputs. -/
theorem c8_amended_witness :
    sweepRow 1200000 ⟨"s1", "claude-code", 0, some 500⟩ =
      ⟨"s1", "claude-code", 0, some 500⟩ ∧
    ((⟨"s1", "claude-code", 0, none⟩ : Session).endTime = none ∧
      (0 : ℤ) < 1200000 - staleWindowMs ∧
      (sweepRow 1200000 ⟨"s1", "claude-code", 0, none⟩).endTime =
        some (0 + staleWindowMs)) ∧
    trackerEndSession (trackerEndSession ⟨some "s1"⟩
        ⟨[⟨"s1", "claude-code", 0, none⟩], []⟩ 100).1
      (trackerEndSession ⟨some "s1"⟩ ⟨[⟨"s1", "claude-code", 0, none⟩], []⟩ 100).2
      200 =
      trackerEndSession ⟨some "s1"⟩ ⟨[⟨"s1", "claude-code", 0, none⟩], []⟩ 100 := by
  refine ⟨c8_amended.1 1200000 _ (by decide), ?_, c8_amended.2.2 _ _ 100 200⟩
  exact c8_amended.2.1 1200000 ⟨"s1", "claude-code", 0, none⟩ (by decide)

/-- C9 counterexample: two SessionStart callbacks from two fresh
processes leave two open session rows in the store — the second does
not close or attach to the first. -/
theorem c9_counterexample :
    openCount (SessionStart ⟨none⟩
      (SessionStart ⟨none⟩ ⟨⟨[], []⟩, none⟩ 0 "s1").2 1000 "s2").2.store = 2 := by decide

/-- C9 amended: within a single process the Tracker does maintain at
most one open session — from a fresh tracker and empty store, any
sequence of startSession, endSession and recordInteraction operations
leaves at most one open row (startSession closes the held session
before creating); the cross-process guarantee fails because
SessionStart never closes the previous process's session. -/
theorem c9_amended (ops : List TrackerOp) :
    openCount (runOps (⟨none⟩, ⟨[], []⟩) ops).2 ≤ 1 := by
  refine (trackerInv_runOps ?_ ops).2
  constructor
  · intro s hs
    simp at hs
  · simp [openCount]

/-- C10: when the handle is missing, expired or unreadable (all of
which loadSessionId reports as none, and expiry past the 2-hour
window does), or points at a session that is absent or already ended,
getReadyTracker with createIfMissing = false returns none and leaves
the file system untouched, and the recording hooks drop the
interaction: no session row, no interaction row, no error. -/
theorem c10_invalid_handle_drops (p : Proc) (fs : FS) (now : Millis) (newId : String)
    (h0 : p.currentSessionId = none)
    (h1 : loadSessionId fs.handle now = none ∨
      ∃ sid, loadSessionId fs.handle now = some sid ∧
        (getSession fs.store sid = none ∨
         ∃ s, getSession fs.store sid = some s ∧ s.endTime.isSome = true)) :
    getReadyTracker false p fs now newId = (none, fs) ∧
    OnPrompt p fs now newId = (p, fs) ∧
    PreToolUse p fs now newId = (p, fs) ∧
    (∀ hd : Handle, sessionExpiryMs < now - hd.timestamp →
      loadSessionId (some hd) now = none) := by
  have hAtt : ∀ nid, getReadyTracker false p fs now nid = (none, fs) := by
    intro nid
    rcases h1 with h1 | ⟨sid, hsid, h1⟩
    · simp [getReadyTracker, h0, h1]
    · rcases h1 with hns | ⟨s, hs, hsEnd⟩
      · simp [getReadyTracker, h0, hsid, attachToSession, hns]
      · simp [getReadyTracker, h0, hsid, attachToSession, hs, hsEnd]
  refine ⟨hAtt newId, ?_, ?_, ?_⟩
  · simp [OnPrompt, hAtt ""]
  · simp [PreToolUse, hAtt ""]
  · intro hd hexp
    simp [loadSessionId, hexp]

/-- C10 witness: a closed target session under a valid handle, at
concrete inputs — the hooks drop the interaction and change nothing. -/
theorem c10_witness :
    getReadyTracker false ⟨none⟩
      ⟨⟨[⟨"s1", "claude-code", 0, some 50⟩], []⟩, some ⟨some "s1", 0⟩⟩ 1000 "i0" =
      (none, ⟨⟨[⟨"s1", "claude-code", 0, some 50⟩], []⟩, some ⟨some "s1", 0⟩⟩) ∧
    OnPrompt ⟨none⟩
      ⟨⟨[⟨"s1", "claude-code", 0, some 50⟩], []⟩, some ⟨some "s1", 0⟩⟩ 1000 "i0" =
      (⟨none⟩, ⟨⟨[⟨"s1", "claude-code", 0, some 50⟩], []⟩, some ⟨some "s1", 0⟩⟩) := by
  have h := c10_invalid_handle_drops ⟨none⟩
    ⟨⟨[⟨"s1", "claude-code", 0, some 50⟩], []⟩, some ⟨some "s1", 0⟩⟩ 1000 "i0" rfl
    (Or.inr ⟨"s1", by decide,
      Or.inr ⟨⟨"s1", "claude-code", 0, some 50⟩, by decide, by decide⟩⟩)
  exact ⟨h.1, h.2.1⟩

/-- C6 counterexample: the divisor of the score average is NOT the
fixed factor count 5.  On stats with 100 hours, one assistant of edit
rate 1, 5 sessions and no badges, the source score divides by the 4
contributing factors and yields 35/12, while the claim formula with
fixed divisor 5 yields 7/3. -/
theorem c6_counterexample :
    calculateScore
      { totalHours := 100, totalSessions := 5, totalInteractions := 10
        byAssistant := [("claude-code", ⟨100, 5, 10, 0, 1, 50⟩)]
        badges := [], score := 0, lastUpdated := 0 } = 35/12 ∧
    scoreSpecC6
      { totalHours := 100, totalSessions := 5, totalInteractions := 10
        byAssistant := [("claude-code", ⟨100, 5, 10, 0, 1, 50⟩)]
        badges := [], score := 0, lastUpdated := 0 } = 7/3 ∧
    calculateScore
      { totalHours := 100, totalSessions := 5, totalInteractions := 10
        byAssistant := [("claude-code", ⟨100, 5, 10, 0, 1, 50⟩)]
        badges := [], score := 0, lastUpdated := 0 } ≠
      scoreSpecC6
      { totalHours := 100, totalSessions := 5, totalInteractions := 10
        byAssistant := [("claude-code", ⟨100, 5, 10, 0, 1, 50⟩)]
        badges := [], score := 0, lastUpdated := 0 } := by
  refine ⟨?_, ?_, ?_⟩ <;>
    norm_num [calculateScore, scoreSpecC6, min_def]

/-- C6 amended: the composite score is 5 times the sum of the
contributing factors divided by their COUNT, where the badge and
multi-tool factors always contribute, the hours factor only when
totalHours is positive, the edit-rate factor only when some assistant
has sessions, and the session factor only above 10 sessions; the
divisor therefore varies between 2 and 5 rather than being fixed
at 5. -/
theorem c6_amended (stats : UserStats) :
    calculateScore stats =
      5 * (includedFactorsC6 stats).sum / ((includedFactorsC6 stats).length : ℚ) ∧
    2 ≤ (includedFactorsC6 stats).length ∧ (includedFactorsC6 stats).length ≤ 5 := by
  refine ⟨?_, ?_, ?_⟩ <;>
    (by_cases hH : 0 < stats.totalHours <;>
     by_cases hA : 0 < stats.byAssistant.length <;>
     by_cases hS : 10 < stats.totalSessions <;>
     simp [calculateScore, includedFactorsC6, hH, hA, hS, List.length_map,
       List.map_map, Function.comp_def, List.sum_append, List.length_append]) <;>
    ring_nf

/-- A satisfied tier has a floor the value meets. -/
theorem tierSatisfied_true_le {value : ℚ} {tiers : BadgeTier → Option ℚ}
    {t : BadgeTier} (hf : tierSatisfied value tiers t = true) :
    ∃ floor, tiers t = some floor ∧ floor ≤ value := by
  unfold tierSatisfied at hf
  cases ht : tiers t with
  | none => rw [ht] at hf; cases hf
  | some f =>
    rw [ht] at hf
    exact ⟨f, rfl, by simpa [ge_iff_le] using of_decide_eq_true hf⟩

/-- An unsatisfied tier with a floor means the value is below it. -/
theorem tierSatisfied_false_lt {value : ℚ} {tiers : BadgeTier → Option ℚ}
    {t : BadgeTier} {floor : ℚ} (hf : tierSatisfied value tiers t = false)
    (ht : tiers t = some floor) : value < floor := by
  unfold tierSatisfied at hf
  rw [ht] at hf
  exact lt_of_not_ge (of_decide_eq_false hf)

/-- The shared core of the C7 conclusions, given the found tier, its
satisfaction, and unsatisfaction of every higher tier. -/
theorem tierCore {value : ℚ} {tiers : BadgeTier → Option ℚ} {t : BadgeTier}
    (badgeId : String) (now : Millis)
    (hfind : getTierForValue value tiers = some t)
    (hsat : tierSatisfied value tiers t = true)
    (hhigher : ∀ t2, tierRank t < tierRank t2 → tierSatisfied value tiers t2 = false) :
    (∃ floor, tiers t = some floor ∧ floor ≤ value) ∧
    (∀ t2 floor2, tierRank t < tierRank t2 → tiers t2 = some floor2 → value < floor2) ∧
    (∀ next floor, getNextTier t = some next → tiers next = some floor →
      tieredResult badgeId now value tiers =
        some ⟨badgeId, now, some t, some (min 100 (value / floor * 100))⟩) ∧
    (t = BadgeTier.diamond →
      tieredResult badgeId now value tiers = some ⟨badgeId, now, some t, some 100⟩) := by
  refine ⟨tierSatisfied_true_le hsat, ?_, ?_, ?_⟩
  · intro t2 floor2 hrank ht2
    exact tierSatisfied_false_lt (hhigher t2 hrank) ht2
  · intro next floor hn hf
    simp [tieredResult, hfind, hn, hf]
  · intro hEq
    subst hEq
    simp [tieredResult, hfind, getNextTier, tierRank]

/-- C7: the tier checker awards the highest tier whose floor the value
meets — the found tier is satisfied and every higher tier with a floor
is strictly above the value — with progress min(100,
value/nextTierFloor*100) toward the next tier and progress 100 at the
top tier (diamond); checkThresholdBadge dispatches the totalHours
metric into exactly this tier logic. -/
theorem c7_tier_selection (value : ℚ) (tiers : BadgeTier → Option ℚ)
    (badgeId : String) (now : Millis) (t : BadgeTier)
    (h : getTierForValue value tiers = some t) :
    ((∃ floor, tiers t = some floor ∧ floor ≤ value) ∧
     (∀ t2 floor2, tierRank t < tierRank t2 → tiers t2 = some floor2 → value < floor2) ∧
     (∀ next floor, getNextTier t = some next → tiers next = some floor →
       tieredResult badgeId now value tiers =
         some ⟨badgeId, now, some t, some (min 100 (value / floor * 100))⟩) ∧
     (t = BadgeTier.diamond →
       tieredResult badgeId now value tiers = some ⟨badgeId, now, some t, some 100⟩)) ∧
    (∀ criteria : ThresholdCriteria, criteria.metric = "totalHours" →
      criteria.tiers = some tiers → ∀ stats : UserStats,
        checkThresholdBadge badgeId criteria stats now =
          tieredResult badgeId now stats.totalHours tiers) := by
  constructor
  · cases hD : tierSatisfied value tiers .diamond with
    | true =>
      have ht : t = .diamond := by
        simp [getTierForValue, tierOrderDesc, List.find?, hD] at h
        exact h.symm
      subst ht
      refine tierCore badgeId now h hD ?_
      intro t2 hrank
      cases t2 <;> simp [tierRank] at hrank
    | false =>
      cases hP : tierSatisfied value tiers .platinum with
      | true =>
        have ht : t = .platinum := by
          simp [getTierForValue, tierOrderDesc, List.find?, hD, hP] at h
          exact h.symm
        subst ht
        refine tierCore badgeId now h hP ?_
        intro t2 hrank
        cases t2 <;> simp [tierRank] at hrank
        exact hD
      | false =>
        cases hG : tierSatisfied value tiers .gold with
        | true =>
          have ht : t = .gold := by
            simp [getTierForValue, tierOrderDesc, List.find?, hD, hP, hG] at h
            exact h.symm
          subst ht
          refine tierCore badgeId now h hG ?_
          intro t2 hrank
          cases t2 <;> simp [tierRank] at hrank
          · exact hP
          · exact hD
        | false =>
          cases hS : tierSatisfied value tiers .silver with
          | true =>
            have ht : t = .silver := by
              simp [getTierForValue, tierOrderDesc, List.find?, hD, hP, hG, hS] at h
              exact h.symm
            subst ht
            refine tierCore badgeId now h hS ?_
            intro t2 hrank
            cases t2 <;> simp [tierRank] at hrank
            · exact hG
            · exact hP
            · exact hD
          | false =>
            cases hB : tierSatisfied value tiers .bronze with
            | true =>
              have ht : t = .bronze := by
                simp [getTierForValue, tierOrderDesc, List.find?, hD, hP, hG, hS,
                  hB] at h
                exact h.symm
              subst ht
              refine tierCore badgeId now h hB ?_
              intro t2 hrank
              cases t2 <;> simp [tierRank] at hrank
              · exact hS
              · exact hG
              · exact hP
              · exact hD
            | false =>
              exfalso
              simp [getTierForValue, tierOrderDesc, List.find?, hD, hP, hG, hS,
                hB] at h
  · intro criteria hm htr stats
    simp [checkThresholdBadge, hm, metricValue, htr]

/-- C7 witness: the claim example — floors bronze 10, silver 50, gold
200, value 50 — yields tier silver with progress 25. -/
theorem c7_witness :
    getTierForValue 50 exampleTiers = some BadgeTier.silver ∧
    tieredResult "time-lord" 0 50 exampleTiers =
      some ⟨"time-lord", 0, some BadgeTier.silver, some 25⟩ := by
  have hD : tierSatisfied 50 exampleTiers .diamond = false := by
    simp [tierSatisfied, exampleTiers]
  have hP : tierSatisfied 50 exampleTiers .platinum = false := by
    simp [tierSatisfied, exampleTiers]
  have hG : tierSatisfied 50 exampleTiers .gold = false := by
    norm_num [tierSatisfied, exampleTiers]
  have hS : tierSatisfied 50 exampleTiers .silver = true := by
    norm_num [tierSatisfied, exampleTiers]
  have hfind : getTierForValue 50 exampleTiers = some BadgeTier.silver := by
    simp [getTierForValue, tierOrderDesc, List.find?, hD, hP, hG, hS]
  have h := (c7_tier_selection 50 exampleTiers "time-lord" 0 .silver hfind).1
  have hprog := h.2.2.1 .gold 200 (by simp [getNextTier, tierRank, tierOrderAsc])
    (by simp [exampleTiers])
  refine ⟨hfind, ?_⟩
  rw [hprog]
  norm_num [min_def]

/-- Serializations under the replacer agree when the data records
agree on every whitelisted key. -/
theorem serializeData_congr {d1 d2 : List (String × String)}
    (h : ∀ k ∈ payloadKeys, lookupData d1 k = lookupData d2 k) :
    serializeData d1 = serializeData d2 := by
  unfold serializeData
  rw [List.filterMap_congr (fun k hk => by rw [h k hk])]

/-- Replacing the data record with one that agrees on every
whitelisted key does not change the canonical serialization. -/
theorem canonicalize_data_congr {p : EventPayload} {d2 : List (String × String)}
    (h : ∀ k ∈ payloadKeys, lookupData p.data k = lookupData d2 k) :
    canonicalize { p with data := d2 } = canonicalize p := by
  unfold canonicalize
  rw [serializeData_congr (fun k hk => (h k hk).symm)]

/-- A freshly signed event verifies under the signing key. -/
theorem verifyEvent_roundtrip (key ty : String) (data : List (String × String))
    (ts : ℤ) (nonce : String) :
    verifyEvent key (createSignedEvent key ty data ts nonce) = true := by
  simp [verifyEvent, createSignedEvent]

/-- Mutating the data record at keys outside the replacer whitelist
does not change the verification outcome — canonicalize drops those
entries before hashing. -/
theorem verifyEvent_ignores_dropped_data (key : String) (e : SignedEvent)
    (d2 : List (String × String))
    (h : ∀ k ∈ payloadKeys, lookupData e.data k = lookupData d2 k) :
    verifyEvent key { e with data := d2 } = verifyEvent key e := by
  obtain ⟨p, sig⟩ := e
  show (signEvent key { p with data := d2 } == sig) = (signEvent key p == sig)
  rw [signEvent, signEvent, canonicalize_data_congr h]

set_option maxRecDepth 1000000
set_option maxHeartbeats 4000000

/-- C4 counterexample: the verification hash is NOT invariant under
permuting the earned badges — it hashes the badge ids in stored order,
not sorted.  Two certificates over the same badge set in the two
orders produce different hashes. -/
theorem c4_counterexample :
    generateHash "alice" "2026-01-01T00:00:00.000Z" ⟨10, 5, ["alpha", "beta"]⟩ ≠
      generateHash "alice" "2026-01-01T00:00:00.000Z" ⟨10, 5, ["beta", "alpha"]⟩ := by
  decide

/-- C4 amended: the verification hash is a deterministic function of
userId, generatedAt, totalHours, totalSessions and the badge ids in
their STORED order (not sorted, so permutations change it); verify of
a generated certificate returns true; and mutating a badge id changes
the hash, checked at a concrete certificate. -/
theorem c4_amended (u i : String) (st : CertStats) :
    certVerify (generateCertificate u i st) = true ∧
    generateHash "alice" "2026-01-01T00:00:00.000Z" ⟨10, 5, ["alpha", "beta"]⟩ ≠
      generateHash "alice" "2026-01-01T00:00:00.000Z" ⟨10, 5, ["gamma", "beta"]⟩ := by
  constructor
  · simp [certVerify, generateCertificate]
  · decide

/-- C5 counterexample: verifyEvent does NOT return false on every
mutation inside the nested data payload.  The replacer array passed to
JSON.stringify filters keys at every level, so the duration_ms entry
is dropped from the canonical serialization, and an event whose
duration_ms was mutated after signing still verifies. -/
theorem c5_counterexample :
    verifyEvent "secret-key"
      { createSignedEvent "secret-key" "interaction" [("duration_ms", "5000")] 1000 "n1" with
        data := [("duration_ms", "999999")] } = true := by
  have h1 : ∀ k ∈ payloadKeys,
      lookupData (createSignedEvent "secret-key" "interaction"
        [("duration_ms", "5000")] 1000 "n1").data k =
      lookupData [("duration_ms", "999999")] k := by decide
  rw [verifyEvent_ignores_dropped_data "secret-key" _ _ h1]
  exact verifyEvent_roundtrip "secret-key" "interaction" [("duration_ms", "5000")]
    1000 "n1"

/-- C5 amended: the signature round-trip holds — a freshly signed
event verifies under the same key — and mutating a top-level payload
field or verifying under a different key is caught (checked at
concrete events); but a mutation inside the nested data payload at a
key outside the five payload key names is NOT caught, because
canonicalize drops such entries. -/
theorem c5_amended (key ty : String) (data d2 : List (String × String)) (ts : ℤ)
    (nonce : String) :
    verifyEvent key (createSignedEvent key ty data ts nonce) = true ∧
    ((∀ k ∈ payloadKeys, lookupData data k = lookupData d2 k) →
      verifyEvent key { createSignedEvent key ty data ts nonce with data := d2 } = true) ∧
    verifyEvent "secret-key"
      { createSignedEvent "secret-key" "interaction" [("duration_ms", "5000")] 1000 "n1" with
        timestamp := 2000 } = false ∧
    verifyEvent "other-key"
      (createSignedEvent "secret-key" "interaction" [("duration_ms", "5000")] 1000 "n1") =
      false := by
  refine ⟨verifyEvent_roundtrip key ty data ts nonce, ?_, by decide, by decide⟩
  intro h
  rw [verifyEvent_ignores_dropped_data key _ d2 h]
  exact verifyEvent_roundtrip key ty data ts nonce

/-- C5 amended witness: the round-trip and the dropped-data clause of
the amended claim at a concrete event whose data record was replaced
after signing. -/
theorem c5_amended_witness :
    verifyEvent "secret-key"
      { createSignedEvent "secret-key" "interaction" [("duration_ms", "5000")] 1000 "n1" with
        data := [("linesAdded", "7")] } = true :=
  (c5_amended "secret-key" "interaction" [("duration_ms", "5000")]
    [("linesAdded", "7")] 1000 "n1").2.1 (by decide)

end StatsCode
